import Mathlib

set_option maxRecDepth 100000

/-
Verification of the query-routing and multi-source retrieval engine of the
dairy_bot repository.  The embedding models the chat route module
(src/unnamed/part_004): the query classifier, the keyword-scored document
retrieval, the time-bounded web-search cache, the CSV dispatcher, the hybrid
synthesizer and the request-level logging.  External effects (the completion
client, the web-search capability, the python executor) are oracles in an
environment record; the mutable web-search cache is threaded as explicit
state.  Strings are lists of characters.
-/

namespace DairyBot

abbrev Str := List Char

/-- JS String.prototype.toLowerCase, on the ASCII content handled here. -/
def lowerStr (s : Str) : Str := s.map Char.toLower

/-- JS String.prototype.trim: strip leading and trailing whitespace. -/
def trimStr (s : Str) : Str :=
  ((s.dropWhile Char.isWhitespace).reverse.dropWhile Char.isWhitespace).reverse

/-- Worker for `jsSplitWhitespace`.  The flag records whether the previous
character was part of a whitespace run (so that a run of several whitespace
characters produces a single separator, as the regex \s+ does). -/
def splitWSGo : Bool → Str → Str → List Str
  | _, [], acc => [acc.reverse]
  | inWS, c :: rest, acc =>
    if c.isWhitespace then
      if inWS then splitWSGo true rest acc
      else acc.reverse :: splitWSGo true rest []
    else splitWSGo false rest (c :: acc)

/-- JS `s.split(/\s+/)`: split on maximal whitespace runs.  A leading or a
trailing run contributes an empty-string element, and the empty string splits
to [""], exactly as in JS. -/
def jsSplitWhitespace (s : Str) : List Str := splitWSGo false s []

/-- JS falsy-default `content || dflt` for an optional string: a missing or
empty string falls back to the default. -/
def jsOrStr (content : Option Str) (dflt : Str) : Str :=
  match content with
  | none => dflt
  | some s => if s = [] then dflt else s

/-- A single-quote character, spliced into the user-facing messages. -/
def sq : Str := [Char.ofNat 39]

/-- Decimal rendering of a number interpolated into a prompt. -/
def natToStr (n : Nat) : Str := (Nat.repr n).toList

/-- One document chunk row as fetched with its owning document
(`include: { document: true }`): the chat route reads `documentId`,
`content`, `chunkIndex` and `document.fileName`. -/
structure Chunk where
  documentId : Str
  chunkIndex : Nat
  content : Str
  docFileName : Str
deriving DecidableEq

/-- A chunk paired with its per-query relevance score (`{ ...chunk, score }`). -/
structure ScoredChunk where
  chunk : Chunk
  score : Nat
deriving DecidableEq

/-- One external web-search result ({ name, url, snippet }). -/
structure SearchResult where
  name : Str
  url : Str
  snippet : Str
deriving DecidableEq

/-- One webSearchCache row: result list, fetch timestamp (ms), hit counter. -/
structure CacheEntry where
  results : List SearchResult
  searchedAt : Nat
  hitCount : Nat
deriving DecidableEq

/-- One farmDataFile row as read by the CSV path. -/
structure FarmDataFile where
  id : Str
  fileName : Str
  filePath : Str
  uploadedAt : Nat
deriving DecidableEq

/-- The payload of one source reference attached to an answer. -/
inductive SourceData
  | doc (fileName : Str) (chunkIndex : Nat)
  | web (title : Str) (url : Str)
  | csv (fileName : Str)
deriving DecidableEq

/-- A source reference; the hybrid path adds a priority tag to its two
sub-results, every other path leaves it absent. -/
structure SrcRef where
  data : SourceData
  priority : Option Str := none
deriving DecidableEq

deriving instance DecidableEq for Except

/-- One chat message handed to the completion client. -/
structure Msg where
  role : Str
  content : Str
deriving DecidableEq

/-- The external collaborators and the read-only tables, as oracles.
`complete` models `zai.chat.completions.create` (error = throw; `ok none`
models a reply with missing content).  `webInvoke` models
`zai.functions.invoke` for web_search (`ok none` models a null result list).
`execPython` models the shelled-out analysis script, returning
(stdout, stderr) or throwing.  `now` is the request timestamp in ms. -/
structure Env where
  complete : List Msg → Except Str (Option Str)
  webInvoke : Str → Nat → Except Str (Option (List SearchResult))
  execPython : Str → Str → Except Str (Str × Str)
  chunksDb : List Chunk
  farmFiles : List FarmDataFile
  now : Nat

/-- The mutable state threaded through one request: the webSearchCache table,
plus two observable event logs — how many times the web-lookup path ran, and
the (query, count) arguments of every external search fetch. -/
structure St where
  cache : List (Str × CacheEntry)
  webPathRuns : Nat
  fetchLog : List (Str × Nat)
deriving DecidableEq

/-- Point lookup in the cache table (`findUnique({ where: { query } })`). -/
def dbFind : List (Str × CacheEntry) → Str → Option CacheEntry
  | [], _ => none
  | (k, e) :: rest, q => if k = q then some e else dbFind rest q

/-- Row update keyed by the unique query (`update({ where: { query } })`). -/
def dbUpdate (f : CacheEntry → CacheEntry) : List (Str × CacheEntry) → Str → List (Str × CacheEntry)
  | [], _ => []
  | (k, e) :: rest, q => if k = q then (k, f e) :: rest else (k, e) :: dbUpdate f rest q

/-- Row insertion (`create`). -/
def dbCreate (cache : List (Str × CacheEntry)) (q : Str) (e : CacheEntry) :
    List (Str × CacheEntry) :=
  cache ++ [(q, e)]

/-- The answer/source pair each processing path returns. -/
structure QueryResult where
  response : Str
  sources : List SrcRef
deriving DecidableEq

/-- System message of the routing call in analyzeQueryType. -/
def classifySys : Str :=
  "You are a query routing assistant. Respond with ONLY one word.".toList

/-- The routing prompt of analyzeQueryType, with the query text and the two
resource counts interpolated. -/
def classifyPrompt (query : Str) (docCount csvCount : Nat) : Str :=
  "Analyze this query and determine the best approach:\n\nQuery: \"".toList ++ query ++
  "\"\n\nAvailable resources:\n- ".toList ++ natToStr docCount ++
  " PDF documents (dairy manuals, scientific papers)\n- ".toList ++ natToStr csvCount ++
  " CSV/Excel files (farm data)\n\nDetermine if the query needs:\n1. CSV/Excel data analysis (keywords: cow, milk, production, average, data, file, csv, excel, herd, yield)\n2. RAG from documents (dairy farming domain knowledge)\n3. Web search (current information, latest trends)\n4. Hybrid approach (both documents and web search)\n5. General chat (no specific resources needed)\n\nRespond with ONLY one word: csv_analysis, rag, web_search, hybrid, or general".toList

/-- Message list of the routing call. -/
def classifyMessages (query : Str) (docCount csvCount : Nat) : List Msg :=
  [⟨"assistant".toList, classifySys⟩,
   ⟨"user".toList, classifyPrompt query docCount csvCount⟩]

/-- analyzeQueryType: asks the completion client for a routing label; the
reply content is trimmed and lowercased, a missing or empty reply and a
thrown error both default to general.  No validation against the label
vocabulary happens here. -/
def analyzeQueryType (env : Env) (query : Str) (documentIds csvFileIds : List Str) : Str :=
  match env.complete (classifyMessages query documentIds.length csvFileIds.length) with
  | .error _ => "general".toList
  | .ok content => jsOrStr (content.map fun s => lowerStr (trimStr s)) ("general".toList)

/-- The five strategy labels of the routing vocabulary. -/
def fiveLabels : List Str :=
  ["csv_analysis".toList, "rag".toList, "web_search".toList,
   "hybrid".toList, "general".toList]

/-- The fixed domain qualifier prepended to every external search query. -/
def dairyQualifier : Str := "dairy farming ".toList

/-- Freshness window of the web-search cache, in milliseconds. -/
def freshnessWindowMs : Nat := 3600000

/-- The fragment and search-result delimiter used when building context. -/
def sepStr : Str := "\n\n---\n\n".toList

/-- Fixed apology answer of the empty-search-result branch. -/
def webEmptyMsg : Str :=
  "I couldn".toList ++ sq ++
  "t find any relevant information from web search. Please try rephrasing your question or upload relevant documents.".toList

/-- Error answer of the web path, embedding the failure detail. -/
def webErrMsg (e : Str) : Str :=
  "I encountered an error searching the web: ".toList ++ e ++
  ". Please try again later.".toList

/-- Fallback answer when the web-synthesis completion yields no content. -/
def webDefaultMsg : Str :=
  "I could not generate a response from the web search results.".toList

/-- System message of the web-synthesis call. -/
def webSys : Str :=
  "You are a Smart Dairy AI assistant. Use the web search results to provide accurate, up-to-date information about dairy farming.".toList

/-- User message of the web-synthesis call. -/
def webUserPrompt (context query : Str) : Str :=
  "Web Search Results:\n\n".toList ++ context ++ "\n\nQuestion: ".toList ++ query ++
  "\n\nProvide a comprehensive answer based on these search results.".toList

/-- Message list of the web-synthesis call. -/
def webMessages (context query : Str) : List Msg :=
  [⟨"assistant".toList, webSys⟩, ⟨"user".toList, webUserPrompt context query⟩]

/-- Tail of processWebSearch shared by the cached and the fresh branch: the
empty-result apology, otherwise context building and the synthesis call
(source lines 447-482). -/
def webRespond (env : Env) (st : St) (query : Str) (searchResults : List SearchResult) :
    QueryResult × St :=
  if searchResults.length = 0 then
    ({ response := webEmptyMsg, sources := [] }, st)
  else
    let context := List.intercalate sepStr (searchResults.map fun r => r.name ++ "\n".toList ++ r.snippet)
    let sources := searchResults.map fun r => { data := SourceData.web r.name r.url : SrcRef }
    match env.complete (webMessages context query) with
    | .error e => ({ response := webErrMsg e, sources := [] }, st)
    | .ok content => ({ response := jsOrStr content webDefaultMsg, sources := sources }, st)

/-- Fresh-fetch branch of processWebSearch (source lines 418-445): invoke the
external search with the decorated query asking for 5 results, then update or
create the cache row.  `hadEntry` says whether a stale row existed.  The
created row sets its timestamp to now and its hit counter to 1; for the
create call these two values are schema defaults.  Modelled from the spec:
the Prisma schema is not under src/, and per the spec a row is created with
timestamp now and hit counter 1. -/
def webFresh (env : Env) (st : St) (query : Str) (hadEntry : Bool) : QueryResult × St :=
  let st1 : St := { st with fetchLog := st.fetchLog ++ [(dairyQualifier ++ query, 5)] }
  match env.webInvoke (dairyQualifier ++ query) 5 with
  | .error e => ({ response := webErrMsg e, sources := [] }, st1)
  | .ok results =>
    let searchResults := results.getD []
    let entry : CacheEntry := { results := searchResults, searchedAt := env.now, hitCount := 1 }
    let st2 : St :=
      { st1 with cache :=
          if hadEntry then dbUpdate (fun _ => entry) st1.cache query
          else dbCreate st1.cache query entry }
    webRespond env st2 query searchResults

/-- processWebSearch (source lines 399-490): look up the cache row for the
exact query string; within the freshness window reuse its result list and
increment its hit counter, otherwise fetch fresh.  The webPathRuns counter
records the observable event that this path ran. -/
def processWebSearch (env : Env) (st0 : St) (query : Str) : QueryResult × St :=
  let st : St := { st0 with webPathRuns := st0.webPathRuns + 1 }
  match dbFind st.cache query with
  | some entry =>
    if env.now - entry.searchedAt < freshnessWindowMs then
      let st1 : St :=
        { st with cache := dbUpdate (fun e => { e with hitCount := e.hitCount + 1 }) st.cache query }
      webRespond env st1 query entry.results
    else webFresh env st query true
  | none => webFresh env st query false

/-- The per-fragment relevance score (source lines 346-349): fold over the
query keywords, adding 1 whenever the keyword occurs as a substring of the
lowercased fragment content.  A keyword repeated in the list contributes once
per occurrence of the fold. -/
def chunkScore (keywords : List Str) (contentLower : Str) : Nat :=
  keywords.foldl (fun acc kw => acc + if kw <:+: contentLower then 1 else 0) 0

/-- The candidate fragments of the document-retrieval path (source lines
327-336): the chunks of the supplied documents, capped at the first 20. -/
def ragCandidates (env : Env) (documentIds : List Str) : List Chunk :=
  (env.chunksDb.filter fun c => decide (c.documentId ∈ documentIds)).take 20

/-- Score every candidate against the lowercase whitespace-split query. -/
def ragScored (query : Str) (chunks : List Chunk) : List ScoredChunk :=
  let queryKeywords := jsSplitWhitespace (lowerStr query)
  chunks.map fun c => { chunk := c, score := chunkScore queryKeywords (lowerStr c.content) }

/-- Descending-score order used by the sort comparator (b.score - a.score). -/
def scoreGE (a b : ScoredChunk) : Prop := b.score ≤ a.score

instance : DecidableRel scoreGE := fun a b => Nat.decLe b.score a.score

instance : IsTotal ScoredChunk scoreGE := ⟨fun a b => Nat.le_total b.score a.score⟩

instance : IsTrans ScoredChunk scoreGE := ⟨fun _ _ _ hab hbc => le_trans hbc hab⟩

/-- Positive-score filter of the candidate fragments. -/
def ragFiltered (query : Str) (chunks : List Chunk) : List ScoredChunk :=
  (ragScored query chunks).filter fun c => decide (0 < c.score)

/-- Surviving fragments (source lines 353-356): positive scores only, stable
descending sort, top 5.  JS Array.prototype.sort is a stable sort, so with
the consistent comparator (a, b) => b.score - a.score its output is the
stable descending reordering that insertionSort with scoreGE computes. -/
def ragRelevant (query : Str) (chunks : List Chunk) : List ScoredChunk :=
  (List.insertionSort scoreGE (ragFiltered query chunks)).take 5

/-- The source reference attached for one surviving fragment. -/
def mkDocSource (sc : ScoredChunk) : SrcRef :=
  { data := SourceData.doc sc.chunk.docFileName sc.chunk.chunkIndex }

/-- System message of the document-synthesis call. -/
def ragSys : Str :=
  "You are a Smart Dairy AI assistant specializing in dairy farming. Use the provided document excerpts to answer the user".toList ++
  sq ++ "s question accurately. If the information is insufficient, acknowledge this limitation.".toList

/-- User message of the document-synthesis call. -/
def ragUserPrompt (context query : Str) : Str :=
  "Context from dairy farm manuals and scientific papers:\n\n".toList ++ context ++
  "\n\nQuestion: ".toList ++ query ++
  "\n\nProvide a comprehensive answer based on the context above. Cite sources when possible.".toList

/-- Message list of the document-synthesis call. -/
def ragMessages (context query : Str) : List Msg :=
  [⟨"assistant".toList, ragSys⟩, ⟨"user".toList, ragUserPrompt context query⟩]

/-- Fallback answer when the document-synthesis completion yields no content. -/
def ragDefaultMsg : Str :=
  "I could not generate a response from the documents.".toList

/-- processRAGQuery (source lines 321-396): fetch candidates, score, filter,
sort, keep 5; an empty candidate set before or after filtering falls back to
the web path, as does a thrown completion error (the catch block). -/
def processRAGQuery (env : Env) (st : St) (query : Str) (documentIds : List Str) :
    QueryResult × St :=
  let chunks := ragCandidates env documentIds
  if chunks.length = 0 then processWebSearch env st query
  else
    let relevantChunks := ragRelevant query chunks
    if relevantChunks.length = 0 then processWebSearch env st query
    else
      let context := List.intercalate sepStr (relevantChunks.map fun sc => sc.chunk.content)
      let sources := relevantChunks.map mkDocSource
      match env.complete (ragMessages context query) with
      | .error _ => processWebSearch env st query
      | .ok content => ({ response := jsOrStr content ragDefaultMsg, sources := sources }, st)

/-- System message of the hybrid merge call. -/
def hybridSys : Str :=
  "You are a Smart Dairy AI assistant. Combine information from both uploaded documents and web search to provide comprehensive answers.".toList

/-- User message of the hybrid merge call. -/
def hybridUserPrompt (ragResponse webResponse query : Str) : Str :=
  "Document-based Answer:\n".toList ++ ragResponse ++
  "\n\nWeb Search Answer:\n".toList ++ webResponse ++
  "\n\nOriginal Question: ".toList ++ query ++
  "\n\nSynthesize these answers into a comprehensive response that draws from both sources when applicable.".toList

/-- Message list of the hybrid merge call. -/
def hybridMessages (ragResponse webResponse query : Str) : List Msg :=
  [⟨"assistant".toList, hybridSys⟩,
   ⟨"user".toList, hybridUserPrompt ragResponse webResponse query⟩]

/-- Tag a source with a priority tier. -/
def setPriority (p : Str) (s : SrcRef) : SrcRef := { s with priority := some p }

/-- processHybridQuery (source lines 493-532): run the document path, then
the web path, tag and concatenate their sources, then ask the completion
client to merge the two answers.  A missing merge reply falls back to the
document answer; a thrown merge error lands in the catch block, which runs
the web path once more. -/
def processHybridQuery (env : Env) (st : St) (query : Str) (documentIds : List Str) :
    QueryResult × St :=
  let rag := processRAGQuery env st query documentIds
  let web := processWebSearch env rag.2 query
  let combinedSources :=
    rag.1.sources.map (setPriority ("high".toList)) ++
    web.1.sources.map (setPriority ("medium".toList))
  match env.complete (hybridMessages rag.1.response web.1.response query) with
  | .error _ => processWebSearch env web.2 query
  | .ok content =>
    ({ response := jsOrStr content rag.1.response, sources := combinedSources }, web.2)

/-- Descending registration order on farm data files (orderBy uploadedAt desc). -/
def uploadedGE (a b : FarmDataFile) : Prop := b.uploadedAt ≤ a.uploadedAt

instance : DecidableRel uploadedGE := fun a b => Nat.decLe b.uploadedAt a.uploadedAt

instance : IsTotal FarmDataFile uploadedGE := ⟨fun a b => Nat.le_total b.uploadedAt a.uploadedAt⟩

instance : IsTrans FarmDataFile uploadedGE := ⟨fun _ _ _ hab hbc => le_trans hbc hab⟩

/-- The file selection of processCSVQuery (source lines 238-242):
`findFirst({ where: { id: { in: csvFileIds } }, orderBy: { uploadedAt: 'desc' } })`,
the first row of the matching set ordered by descending upload time. -/
def farmDataFileFind (files : List FarmDataFile) (ids : List Str) : Option FarmDataFile :=
  (List.insertionSort uploadedGE (files.filter fun f => decide (f.id ∈ ids))).head?

/-- System message of the CSV interpretation call. -/
def csvSys : Str :=
  "You are a dairy farm data analyst. Interpret the data analysis results and provide clear, actionable insights for dairy producers.".toList

/-- User message of the CSV interpretation call. -/
def csvUserPrompt (query analysisResult : Str) : Str :=
  "User Query: ".toList ++ query ++ "\n\nData Analysis Results:\n".toList ++ analysisResult ++
  "\n\nPlease explain these results in clear, practical terms for a dairy farmer.".toList

/-- Message list of the CSV interpretation call. -/
def csvMessages (query analysisResult : Str) : List Msg :=
  [⟨"assistant".toList, csvSys⟩, ⟨"user".toList, csvUserPrompt query analysisResult⟩]

/-- Fixed answer of the no-file branch of the CSV path. -/
def csvNoFileMsg : Str :=
  "I don".toList ++ sq ++
  "t have any farm data files to analyze. Please upload CSV or Excel files from your herd management software.".toList

/-- Error answer of the CSV path, embedding the failure detail. -/
def csvErrMsg (e : Str) : Str :=
  "I encountered an error analyzing your farm data: ".toList ++ e ++
  ". Please check that the file is properly formatted.".toList

/-- processCSVQuery (source lines 232-318): select the most recently uploaded
of the supplied files, shell out to the analysis script (the generated pandas
body is the external executor, fed the file path and the raw query), then ask
the completion client to narrate stdout-or-stderr.  Any throw lands in the
catch block with the error answer. -/
def processCSVQuery (env : Env) (st : St) (query : Str) (csvFileIds : List Str) :
    QueryResult × St :=
  match farmDataFileFind env.farmFiles csvFileIds with
  | none => ({ response := csvNoFileMsg, sources := [] }, st)
  | some farmDataFile =>
    match env.execPython farmDataFile.filePath query with
    | .error e => ({ response := csvErrMsg e, sources := [] }, st)
    | .ok out =>
      let analysisResult := if out.1 = [] then out.2 else out.1
      match env.complete (csvMessages query analysisResult) with
      | .error e => ({ response := csvErrMsg e, sources := [] }, st)
      | .ok content =>
        ({ response := jsOrStr content analysisResult,
           sources := [{ data := SourceData.csv farmDataFile.fileName }] }, st)

/-- System message of the direct-chat call. -/
def generalSys : Str :=
  "You are a helpful Smart Dairy AI assistant specializing in dairy farming. Provide helpful, accurate information about dairy operations, breeding, nutrition, management, and best practices.".toList

/-- Fallback answer when the direct-chat completion yields no content. -/
def directChatDefaultMsg : Str := "I could not generate a response.".toList

/-- directChat (source lines 535-551): a single completion call with the raw
query; it has no catch of its own, so a thrown error propagates. -/
def directChat (env : Env) (query : Str) : Except Str Str :=
  match env.complete [⟨"assistant".toList, generalSys⟩, ⟨"user".toList, query⟩] with
  | .error e => .error e
  | .ok content => .ok (jsOrStr content directChatDefaultMsg)

/-- The {response, sources, queryType} triple processQuery returns. -/
structure ProcessResult where
  response : Str
  sources : List SrcRef
  queryType : Str
deriving DecidableEq

/-- processQuery (source lines 131-189): classify, then dispatch on the label
string; any string outside the four handled cases takes the default branch
and resolves to general. -/
def processQuery (env : Env) (st : St) (query : Str) (documentIds csvFileIds : List Str) :
    Except Str (ProcessResult × St) :=
  let qt := analyzeQueryType env query documentIds csvFileIds
  if qt = "csv_analysis".toList then
    let p := processCSVQuery env st query csvFileIds
    .ok ({ response := p.1.response, sources := p.1.sources,
           queryType := "csv_analysis".toList }, p.2)
  else if qt = "rag".toList then
    let p := processRAGQuery env st query documentIds
    .ok ({ response := p.1.response, sources := p.1.sources,
           queryType := "rag".toList }, p.2)
  else if qt = "web_search".toList then
    let p := processWebSearch env st query
    .ok ({ response := p.1.response, sources := p.1.sources,
           queryType := "web_search".toList }, p.2)
  else if qt = "hybrid".toList then
    let p := processHybridQuery env st query documentIds
    .ok ({ response := p.1.response, sources := p.1.sources,
           queryType := "hybrid".toList }, p.2)
  else
    match directChat env query with
    | .error e => .error e
    | .ok resp => .ok ({ response := resp, sources := [], queryType := "general".toList }, st)

/-- One analytics row appended by the POST handler (source lines 95-105). -/
structure QueryLogRow where
  query : Str
  queryType : Str
  documents : List Str
  csvFile : Option Str
  triggeredWebSearch : Bool
deriving DecidableEq

/-- The analytics row the POST handler writes for one processed query:
the web-search flag is computed from the resolved strategy label alone. -/
def postQueryLog (query : Str) (documents csvFiles : List Str) (result : ProcessResult) :
    QueryLogRow :=
  { query := query
    queryType := result.queryType
    documents := documents
    csvFile := csvFiles.head?
    triggeredWebSearch :=
      decide (result.queryType = "web_search".toList) ||
      decide (result.queryType = "hybrid".toList) }

/-- The relevance score as claim C3 words it: each distinct query term
contributes at most 1, regardless of how often it occurs in the query or in
the fragment.  Stated from the claim for comparison with chunkScore. -/
def specTermScore (keywords : List Str) (contentLower : Str) : Nat :=
  (keywords.dedup.filter fun kw => decide (kw <:+: contentLower)).length

/-- The score fold, started from any accumulator, adds the number of
keywords (with multiplicity) occurring in the content. -/
theorem chunkScore_foldl (contentLower : Str) :
    ∀ (kws : List Str) (n : Nat),
      kws.foldl (fun acc kw => acc + if kw <:+: contentLower then 1 else 0) n =
        n + kws.countP (fun kw => decide (kw <:+: contentLower)) := by
  intro kws
  induction kws with
  | nil => simp
  | cons kw rest ih =>
    intro n
    rw [List.foldl_cons, ih, List.countP_cons]
    by_cases h : kw <:+: contentLower
    · simp [h]
      omega
    · simp [h]

/-- chunkScore counts the keywords, with multiplicity, that occur as a
substring of the content. -/
theorem chunkScore_eq_countP (kws : List Str) (contentLower : Str) :
    chunkScore kws contentLower =
      kws.countP (fun kw => decide (kw <:+: contentLower)) := by
  rw [chunkScore, chunkScore_foldl]
  exact Nat.zero_add _

/-- Updating a key rewrites that key's row by f. -/
theorem dbFind_dbUpdate_self (f : CacheEntry → CacheEntry) :
    ∀ (cache : List (Str × CacheEntry)) (q : Str) (e : CacheEntry),
      dbFind cache q = some e → dbFind (dbUpdate f cache q) q = some (f e) := by
  intro cache
  induction cache with
  | nil => intro q e h; simp [dbFind] at h
  | cons kv rest ih =>
    intro q e h
    obtain ⟨k, v⟩ := kv
    by_cases hk : k = q
    · subst hk
      simp [dbFind] at h
      simp [dbUpdate, dbFind, h]
    · simp [dbFind, hk] at h
      simp [dbUpdate, dbFind, hk, ih _ _ h]

/-- Updating a key leaves every other key's row unchanged. -/
theorem dbFind_dbUpdate_ne (f : CacheEntry → CacheEntry) :
    ∀ (cache : List (Str × CacheEntry)) (q q' : Str), q' ≠ q →
      dbFind (dbUpdate f cache q) q' = dbFind cache q' := by
  intro cache
  induction cache with
  | nil => intro q q' _; simp [dbUpdate]
  | cons kv rest ih =>
    intro q q' hne
    obtain ⟨k, v⟩ := kv
    by_cases hk : k = q
    · subst hk
      simp [dbUpdate, dbFind, Ne.symm hne]
    · simp [dbUpdate, dbFind, hk]
      by_cases hk' : k = q'
      · simp [hk']
      · simp [hk', ih _ _ hne]

/-- Creating a row for an absent key makes that key resolve to the new row. -/
theorem dbFind_dbCreate_self :
    ∀ (cache : List (Str × CacheEntry)) (q : Str) (e : CacheEntry),
      dbFind cache q = none → dbFind (dbCreate cache q e) q = some e := by
  intro cache
  induction cache with
  | nil => intro q e _; simp [dbCreate, dbFind]
  | cons kv rest ih =>
    intro q e h
    obtain ⟨k, v⟩ := kv
    by_cases hk : k = q
    · simp [dbFind, hk] at h
    · simp [dbFind, hk] at h
      simp [dbCreate, dbFind, hk] at ih ⊢
      exact ih _ _ h

/-- Creating a row for one key leaves every other key's row unchanged. -/
theorem dbFind_dbCreate_ne :
    ∀ (cache : List (Str × CacheEntry)) (q q' : Str) (e : CacheEntry), q' ≠ q →
      dbFind (dbCreate cache q e) q' = dbFind cache q' := by
  intro cache
  induction cache with
  | nil => intro q q' e hne; simp [dbCreate, dbFind, Ne.symm hne]
  | cons kv rest ih =>
    intro q q' e hne
    obtain ⟨k, v⟩ := kv
    by_cases hk' : k = q'
    · simp [dbCreate, dbFind, hk']
    · simp [dbCreate, dbFind, hk'] at ih ⊢
      exact ih _ _ _ hne

/-- The shared response tail never touches the threaded state. -/
theorem webRespond_snd (env : Env) (st : St) (q : Str) (rs : List SearchResult) :
    (webRespond env st q rs).2 = st := by
  rw [webRespond]
  split
  · rfl
  · dsimp only
    split <;> rfl

/-- The fresh-fetch branch does not change the web-path-run counter. -/
theorem webFresh_webPathRuns (env : Env) (st : St) (q : Str) (b : Bool) :
    ((webFresh env st q b).2).webPathRuns = st.webPathRuns := by
  rw [webFresh]
  split
  · rfl
  · rw [webRespond_snd]

/-- Every run of the web-lookup path bumps the run counter by exactly one. -/
theorem processWebSearch_webPathRuns (env : Env) (st : St) (q : Str) :
    ((processWebSearch env st q).2).webPathRuns = st.webPathRuns + 1 := by
  rw [processWebSearch]
  split
  · split
    · rw [webRespond_snd]
    · rw [webFresh_webPathRuns]
  · rw [webFresh_webPathRuns]

/-- Every source the web-lookup path returns is a web source without a
priority tag. -/
theorem processWebSearch_sources_web (env : Env) (st : St) (q : Str) :
    ∀ src ∈ (processWebSearch env st q).1.sources,
      ∃ t u, src = { data := SourceData.web t u, priority := none } := by
  have hresp : ∀ (st' : St) (rs : List SearchResult),
      ∀ src ∈ (webRespond env st' q rs).1.sources,
        ∃ t u, src = { data := SourceData.web t u, priority := none } := by
    intro st' rs src hsrc
    rw [webRespond] at hsrc
    split at hsrc
    · simp at hsrc
    · dsimp only at hsrc
      split at hsrc
      · simp at hsrc
      · simp at hsrc
        obtain ⟨r, _, hr⟩ := hsrc
        exact ⟨r.name, r.url, hr.symm⟩
  have hfresh : ∀ (st' : St) (b : Bool),
      ∀ src ∈ (webFresh env st' q b).1.sources,
        ∃ t u, src = { data := SourceData.web t u, priority := none } := by
    intro st' b src hsrc
    rw [webFresh] at hsrc
    split at hsrc
    · simp at hsrc
    · exact hresp _ _ src hsrc
  intro src hsrc
  rw [processWebSearch] at hsrc
  split at hsrc
  · split at hsrc
    · exact hresp _ _ src hsrc
    · exact hfresh _ _ src hsrc
  · exact hfresh _ _ src hsrc

/-- Empty starting state used by the concrete checks. -/
def st0 : St := { cache := [], webPathRuns := 0, fetchLog := [] }

/-- One document chunk used by the concrete checks. -/
def chunkA : Chunk :=
  { documentId := "d1".toList, chunkIndex := 0,
    content := "milk yield data".toList, docFileName := "manual.pdf".toList }

/-- One web search result used by the concrete checks. -/
def resT : SearchResult := { name := "t".toList, url := "u".toList, snippet := "s".toList }

/-- Environment whose completion client answers every call with " BANANA ",
a reply outside the label vocabulary. -/
def envBanana : Env :=
  { complete := fun _ => .ok (some (" BANANA ".toList))
    webInvoke := fun _ _ => .ok none
    execPython := fun _ _ => .error []
    chunksDb := []
    farmFiles := []
    now := 0 }

/-- Environment where the document-synthesis call answers, the web-synthesis
call answers, and the hybrid merge call throws. -/
def envDocWeb : Env :=
  { complete := fun msgs =>
      match msgs with
      | m :: _ =>
        if m.content = hybridSys then .error ("boom".toList)
        else if m.content = ragSys then .ok (some ("docanswer".toList))
        else .ok (some ("webanswer".toList))
      | [] => .ok none
    webInvoke := fun _ _ => .ok (some [resT])
    execPython := fun _ _ => .error []
    chunksDb := [chunkA]
    farmFiles := []
    now := 0 }

/-- Environment like envDocWeb except that the hybrid merge call comes back
with no content instead of throwing. -/
def envDocWebNone : Env :=
  { envDocWeb with
    complete := fun msgs =>
      match msgs with
      | m :: _ =>
        if m.content = hybridSys then .ok none
        else if m.content = ragSys then .ok (some ("docanswer".toList))
        else .ok (some ("webanswer".toList))
      | [] => .ok none }

/-- Environment whose routing call answers rag while no chunks exist, so the
document path must fall back to the web path. -/
def envNoDocs : Env :=
  { complete := fun msgs =>
      match msgs with
      | m :: _ =>
        if m.content = classifySys then .ok (some ("rag".toList))
        else .ok (some ("webanswer".toList))
      | [] => .ok none
    webInvoke := fun _ _ => .ok (some [resT])
    execPython := fun _ _ => .error []
    chunksDb := []
    farmFiles := []
    now := 0 }

/-- Claim C3, counterexample: with the query "milk milk" the code scores a
fragment containing the term once as 2, because the fold runs over the split
list with multiplicity, while the claim caps each term at 1 per fragment
(specTermScore). -/
theorem c3_term_multiplicity_counterexample :
    chunkScore (jsSplitWhitespace (lowerStr ("milk milk".toList)))
        (lowerStr ("milk is good".toList)) = 2 ∧
    specTermScore (jsSplitWhitespace (lowerStr ("milk milk".toList)))
        (lowerStr ("milk is good".toList)) = 1 ∧
    (ragScored ("milk milk".toList) [chunkA]).map ScoredChunk.score = [2] := by
  decide

/-- Claim C3 (amended): a fragment's relevance score equals the number of
elements of the lowercase whitespace-split query list, counted with their
multiplicity in that list, whose text occurs as a substring of the lowercased
fragment content; how often a term occurs inside the fragment is irrelevant. -/
theorem c3_score_counts_split_elements (query : Str) (chunks : List Chunk) :
    ragScored query chunks = chunks.map fun c =>
      { chunk := c,
        score := (jsSplitWhitespace (lowerStr query)).countP
          (fun kw => decide (kw <:+: lowerStr c.content)) } := by
  rw [ragScored]
  simp only [chunkScore_eq_countP]

/-- An empty candidate set, before or after filtering, sends the document
path into the web-lookup fallback. -/
theorem processRAGQuery_fallback (env : Env) (st : St) (query : Str)
    (documentIds : List Str)
    (h : ragCandidates env documentIds = [] ∨
      ragRelevant query (ragCandidates env documentIds) = []) :
    processRAGQuery env st query documentIds = processWebSearch env st query := by
  rw [processRAGQuery]
  rcases h with h | h
  · simp [h]
  · by_cases hc : (ragCandidates env documentIds).length = 0
    · simp [hc]
    · simp [hc, h]

/-- Claim C5: if the candidate set is empty before filtering or every
candidate scores zero, the document-retrieval path returns exactly the
web-lookup path's result, state effects included. -/
theorem c5_retrieval_exhausted_falls_back (env : Env) (st : St) (query : Str)
    (documentIds : List Str)
    (h : ragCandidates env documentIds = [] ∨
      ragRelevant query (ragCandidates env documentIds) = []) :
    processRAGQuery env st query documentIds = processWebSearch env st query :=
  processRAGQuery_fallback env st query documentIds h

/-- Claim C5, witness: a concrete query with no candidate chunks lands in the
fallback, and both paths agree there. -/
theorem c5_retrieval_exhausted_falls_back_witness :
    processRAGQuery envNoDocs st0 ("milk".toList) ["d1".toList] =
      processWebSearch envNoDocs st0 ("milk".toList) :=
  c5_retrieval_exhausted_falls_back envNoDocs st0 ("milk".toList) ["d1".toList]
    (Or.inl (by decide))

/-- Claim C9: among the supplied identifiers that resolve to registered
files, the CSV dispatcher's selection picks the file whose registration time
beats every other resolved file. -/
theorem c9_most_recent_file_selected (files : List FarmDataFile) (ids : List Str)
    (f : FarmDataFile) (hf : f ∈ files) (hid : f.id ∈ ids)
    (hmax : ∀ g ∈ files, g.id ∈ ids → g ≠ f → g.uploadedAt < f.uploadedAt) :
    farmDataFileFind files ids = some f := by
  have hmem : f ∈ files.filter fun g => decide (g.id ∈ ids) := by
    rw [List.mem_filter]
    exact ⟨hf, by simpa using hid⟩
  have hmem' : f ∈ List.insertionSort uploadedGE (files.filter fun g => decide (g.id ∈ ids)) := by
    rw [List.mem_insertionSort]
    exact hmem
  rw [farmDataFileFind]
  cases hs : List.insertionSort uploadedGE (files.filter fun g => decide (g.id ∈ ids)) with
  | nil =>
    rw [hs] at hmem'
    simp at hmem'
  | cons a t =>
    rw [hs] at hmem'
    have hsorted := List.sorted_insertionSort uploadedGE (files.filter fun g => decide (g.id ∈ ids))
    rw [hs] at hsorted
    have ha : a ∈ files.filter fun g => decide (g.id ∈ ids) := by
      rw [← List.mem_insertionSort (r := uploadedGE), hs]
      exact List.mem_cons_self a t
    rw [List.mem_filter] at ha
    rcases List.mem_cons.mp hmem' with h | h
    · simp [h]
    · by_cases hfa : a = f
      · simp [hfa]
      · exfalso
        have hlt := hmax a ha.1 (by simpa using ha.2) hfa
        have hge : uploadedGE a f := List.rel_of_sorted_cons hsorted f h
        exact Nat.lt_irrefl _ (Nat.lt_of_le_of_lt hge hlt)

/-- Claim C9, witness: given identifiers [A, B] where B was registered later
than A, the selection picks B. -/
theorem c9_most_recent_file_selected_witness :
    farmDataFileFind
      [{ id := "A".toList, fileName := "a.csv".toList, filePath := "/a".toList, uploadedAt := 1 },
       { id := "B".toList, fileName := "b.csv".toList, filePath := "/b".toList, uploadedAt := 2 }]
      ["A".toList, "B".toList] =
      some { id := "B".toList, fileName := "b.csv".toList, filePath := "/b".toList, uploadedAt := 2 } :=
  c9_most_recent_file_selected _ _ _ (by decide) (by decide) (by decide)

/-- Claim C10: the document-retrieval path fetches at most the first 20
fragments of the supplied documents as candidates; every surviving fragment
comes from that candidate set, and every returned source is either the
reference of a surviving fragment or a web source from the fallback — so a
fragment outside the first-20 set can never be used, whatever it would
score. -/
theorem c10_candidate_cap (env : Env) (query : Str) (documentIds : List Str) :
    (ragCandidates env documentIds).length ≤ 20 ∧
    ragCandidates env documentIds <+:
      (env.chunksDb.filter fun c => decide (c.documentId ∈ documentIds)) ∧
    (∀ sc ∈ ragRelevant query (ragCandidates env documentIds),
      sc.chunk ∈ ragCandidates env documentIds) ∧
    (∀ (st : St), ∀ src ∈ (processRAGQuery env st query documentIds).1.sources,
      (∃ sc ∈ ragRelevant query (ragCandidates env documentIds), src = mkDocSource sc) ∨
      (∃ t u, src = { data := SourceData.web t u, priority := none })) := by
  have hmemchunk : ∀ sc ∈ ragRelevant query (ragCandidates env documentIds),
      sc.chunk ∈ ragCandidates env documentIds := by
    intro sc hsc
    rw [ragRelevant] at hsc
    have h1 := List.mem_of_mem_take hsc
    rw [List.mem_insertionSort] at h1
    rw [ragFiltered] at h1
    have h2 := List.mem_of_mem_filter h1
    rw [ragScored] at h2
    simp only [List.mem_map] at h2
    obtain ⟨c, hc, rfl⟩ := h2
    exact hc
  refine ⟨List.length_take_le _ _, List.take_prefix _ _, hmemchunk, ?_⟩
  intro st src hsrc
  rw [processRAGQuery] at hsrc
  by_cases h0 : (ragCandidates env documentIds).length = 0
  · right
    rw [if_pos h0] at hsrc
    exact processWebSearch_sources_web env st query src hsrc
  · rw [if_neg h0] at hsrc
    dsimp only at hsrc
    by_cases h1 : (ragRelevant query (ragCandidates env documentIds)).length = 0
    · right
      rw [if_pos h1] at hsrc
      exact processWebSearch_sources_web env st query src hsrc
    · rw [if_neg h1] at hsrc
      rcases hcomp : env.complete (ragMessages
          (List.intercalate sepStr
            ((ragRelevant query (ragCandidates env documentIds)).map fun sc => sc.chunk.content))
          query) with e | content
      · rw [hcomp] at hsrc
        right
        exact processWebSearch_sources_web env st query src hsrc
      · rw [hcomp] at hsrc
        left
        simp only [List.mem_map] at hsrc
        obtain ⟨sc, hsc, rfl⟩ := hsrc
        exact ⟨sc, hsc, rfl⟩

/-- Claim C10, witness: a concrete surviving fragment, shown to lie in the
capped candidate set through the theorem. -/
theorem c10_candidate_cap_witness :
    ({ chunk := chunkA, score := 1 } : ScoredChunk) ∈
      ragRelevant ("milk".toList) (ragCandidates envDocWeb ["d1".toList]) ∧
    chunkA ∈ ragCandidates envDocWeb ["d1".toList] :=
  ⟨by decide,
   (c10_candidate_cap envDocWeb ("milk".toList) ["d1".toList]).2.2.1
     { chunk := chunkA, score := 1 } (by decide)⟩

/-- Claim C4: in the document-retrieval branch every zero-scoring fragment is
discarded, the survivors are the first five of a stable descending reordering
of the positively scored fragments (descending score, ties in original
order), and one source reference is returned per survivor. -/
theorem c4_ranking (env : Env) (st : St) (query : Str) (documentIds : List Str)
    (c : Option Str)
    (h0 : ¬ (ragCandidates env documentIds).length = 0)
    (h1 : ¬ (ragRelevant query (ragCandidates env documentIds)).length = 0)
    (h2 : env.complete (ragMessages
        (List.intercalate sepStr
          ((ragRelevant query (ragCandidates env documentIds)).map fun sc => sc.chunk.content))
        query) = .ok c) :
    (processRAGQuery env st query documentIds).1.sources =
      (ragRelevant query (ragCandidates env documentIds)).map mkDocSource ∧
    (∀ sc ∈ ragRelevant query (ragCandidates env documentIds), 0 < sc.score) ∧
    (ragRelevant query (ragCandidates env documentIds)).Sorted scoreGE ∧
    (ragRelevant query (ragCandidates env documentIds)).length ≤ 5 ∧
    List.Perm (List.insertionSort scoreGE (ragFiltered query (ragCandidates env documentIds)))
      (ragFiltered query (ragCandidates env documentIds)) ∧
    (∀ a b, List.Sublist [a, b] (ragFiltered query (ragCandidates env documentIds)) → scoreGE a b →
      List.Sublist [a, b]
        (List.insertionSort scoreGE (ragFiltered query (ragCandidates env documentIds)))) ∧
    ragRelevant query (ragCandidates env documentIds) <+:
      List.insertionSort scoreGE (ragFiltered query (ragCandidates env documentIds)) := by
  refine ⟨?_, ?_, ?_, ?_, ?_, ?_, ?_⟩
  · rw [processRAGQuery]
    rw [if_neg h0]
    dsimp only
    rw [if_neg h1, h2]
  · intro sc hsc
    rw [ragRelevant] at hsc
    have hmem := List.mem_of_mem_take hsc
    rw [List.mem_insertionSort, ragFiltered, List.mem_filter] at hmem
    exact of_decide_eq_true hmem.2
  · rw [ragRelevant]
    exact (List.sorted_insertionSort scoreGE _).sublist (List.take_sublist _ _)
  · rw [ragRelevant]
    exact List.length_take_le _ _
  · exact List.perm_insertionSort scoreGE _
  · intro a b hsub hab
    exact List.pair_sublist_insertionSort hab hsub
  · rw [ragRelevant]
    exact List.take_prefix _ _

/-- Claim C4, witness: a concrete run through the document-retrieval branch,
with the source list equal to one reference per surviving fragment. -/
theorem c4_ranking_witness :
    (processRAGQuery envDocWeb st0 ("milk".toList) ["d1".toList]).1.sources =
      (ragRelevant ("milk".toList) (ragCandidates envDocWeb ["d1".toList])).map mkDocSource :=
  (c4_ranking envDocWeb st0 ("milk".toList) ["d1".toList] (some ("docanswer".toList))
    (by decide) (by decide) (by decide)).1

/-- Claim C6: a web lookup that hits a cache row younger than the freshness
window reuses the cached result list without any external fetch, bumps that
row's hit counter by exactly 1 leaving its result list and timestamp as they
were, and writes no other row. -/
theorem c6_cache_hit (env : Env) (st : St) (query : Str) (entry : CacheEntry)
    (hfind : dbFind st.cache query = some entry)
    (hfresh : env.now - entry.searchedAt < freshnessWindowMs) :
    dbFind ((processWebSearch env st query).2).cache query =
      some { entry with hitCount := entry.hitCount + 1 } ∧
    (∀ q', q' ≠ query →
      dbFind ((processWebSearch env st query).2).cache q' = dbFind st.cache q') ∧
    ((processWebSearch env st query).2).fetchLog = st.fetchLog ∧
    processWebSearch env st query =
      webRespond env
        { st with
            webPathRuns := st.webPathRuns + 1,
            cache := dbUpdate (fun e => { e with hitCount := e.hitCount + 1 }) st.cache query }
        query entry.results := by
  have heq : processWebSearch env st query =
      webRespond env
        { st with
            webPathRuns := st.webPathRuns + 1,
            cache := dbUpdate (fun e => { e with hitCount := e.hitCount + 1 }) st.cache query }
        query entry.results := by
    rw [processWebSearch]
    dsimp only
    rw [hfind]
    dsimp only
    rw [if_pos hfresh]
  refine ⟨?_, ?_, ?_, heq⟩
  · rw [heq, webRespond_snd]
    exact dbFind_dbUpdate_self _ _ _ _ hfind
  · intro q' hq'
    rw [heq, webRespond_snd]
    exact dbFind_dbUpdate_ne _ _ _ _ hq'
  · rw [heq, webRespond_snd]

/-- Claim C6, witness: a concrete cache hit 500 ms after the stored fetch
leaves the row's list and timestamp intact and bumps the counter from 3 to
4. -/
theorem c6_cache_hit_witness :
    dbFind ((processWebSearch
        { complete := fun _ => .ok (some ("webanswer".toList))
          webInvoke := fun _ _ => .ok (some [resT])
          execPython := fun _ _ => .error []
          chunksDb := [], farmFiles := [], now := 1000 }
        { cache := [("milk".toList, { results := [resT], searchedAt := 500, hitCount := 3 })],
          webPathRuns := 0, fetchLog := [] }
        ("milk".toList)).2).cache ("milk".toList) =
      some { results := [resT], searchedAt := 500, hitCount := 4 } :=
  (c6_cache_hit _ _ ("milk".toList)
    { results := [resT], searchedAt := 500, hitCount := 3 }
    (by decide) (by decide)).1

/-- Claim C7: a web lookup with no cache row, or a row at least as old as the
freshness window, performs one external search for 5 results on the
domain-qualified query, and (when the search succeeds) creates or replaces
the row with the fetched list, timestamp now and hit counter 1, writing no
other row. -/
theorem c7_cache_refresh (env : Env) (st : St) (query : Str)
    (res : Option (List SearchResult))
    (hstale : dbFind st.cache query = none ∨
      ∃ entry, dbFind st.cache query = some entry ∧
        ¬ env.now - entry.searchedAt < freshnessWindowMs)
    (hsearch : env.webInvoke (dairyQualifier ++ query) 5 = .ok res) :
    ((processWebSearch env st query).2).fetchLog =
      st.fetchLog ++ [(dairyQualifier ++ query, 5)] ∧
    dbFind ((processWebSearch env st query).2).cache query =
      some { results := res.getD [], searchedAt := env.now, hitCount := 1 } ∧
    (∀ q', q' ≠ query →
      dbFind ((processWebSearch env st query).2).cache q' = dbFind st.cache q') := by
  rcases hstale with hnone | ⟨entry, hfind, hstale⟩
  · have heq : processWebSearch env st query =
        webRespond env
          { st with
              webPathRuns := st.webPathRuns + 1,
              fetchLog := st.fetchLog ++ [(dairyQualifier ++ query, 5)],
              cache := dbCreate st.cache query
                { results := res.getD [], searchedAt := env.now, hitCount := 1 } }
          query (res.getD []) := by
      rw [processWebSearch]
      dsimp only
      rw [hnone]
      dsimp only
      rw [webFresh]
      dsimp only
      rw [hsearch]
      rfl
    refine ⟨?_, ?_, ?_⟩
    · rw [heq, webRespond_snd]
    · rw [heq, webRespond_snd]
      exact dbFind_dbCreate_self _ _ _ hnone
    · intro q' hq'
      rw [heq, webRespond_snd]
      exact dbFind_dbCreate_ne _ _ _ _ hq'
  · have heq : processWebSearch env st query =
        webRespond env
          { st with
              webPathRuns := st.webPathRuns + 1,
              fetchLog := st.fetchLog ++ [(dairyQualifier ++ query, 5)],
              cache := dbUpdate
                (fun _ => { results := res.getD [], searchedAt := env.now, hitCount := 1 })
                st.cache query }
          query (res.getD []) := by
      rw [processWebSearch]
      dsimp only
      rw [hfind]
      dsimp only
      rw [if_neg hstale]
      rw [webFresh]
      dsimp only
      rw [hsearch]
      rfl
    refine ⟨?_, ?_, ?_⟩
    · rw [heq, webRespond_snd]
    · rw [heq, webRespond_snd]
      exact dbFind_dbUpdate_self _ _ _ _ hfind
    · intro q' hq'
      rw [heq, webRespond_snd]
      exact dbFind_dbUpdate_ne _ _ _ _ hq'

/-- Claim C7, witness: a concrete lookup against a row 4000000 ms old
re-fetches and resets the row to the new list with timestamp now and counter
1. -/
theorem c7_cache_refresh_witness :
    dbFind ((processWebSearch
        { complete := fun _ => .ok (some ("webanswer".toList))
          webInvoke := fun _ _ => .ok (some [resT])
          execPython := fun _ _ => .error []
          chunksDb := [], farmFiles := [], now := 5000000 }
        { cache := [("milk".toList, { results := [], searchedAt := 0, hitCount := 7 })],
          webPathRuns := 0, fetchLog := [] }
        ("milk".toList)).2).cache ("milk".toList) =
      some { results := [resT], searchedAt := 5000000, hitCount := 1 } :=
  (c7_cache_refresh _ _ ("milk".toList) (some [resT])
    (Or.inr ⟨{ results := [], searchedAt := 0, hitCount := 7 }, by decide, by decide⟩)
    (by decide)).2.1

/-- Claim C1, counterexample: when the completion call succeeds with the
unrecognized reply " BANANA ", the classifier returns banana — neither one of
the five labels nor general — so malformed output is not mapped to general by
the classifier itself. -/
theorem c1_unvalidated_label_counterexample :
    analyzeQueryType envBanana ("q".toList) [] [] = "banana".toList ∧
    analyzeQueryType envBanana ("q".toList) [] [] ∉ fiveLabels := by
  decide

/-- Claim C1 (amended): the classifier returns the trimmed lowercased reply
and maps a thrown completion error (and a missing or empty reply) to general,
but passes any other unrecognized token through; the dispatcher then resolves
every unrecognized token to the general path, so the resolved strategy of a
processed query always lies in the five-label vocabulary. -/
theorem c1_resolved_strategy_always_labeled (env : Env) (st : St) (query : Str)
    (documentIds csvFileIds : List Str) (r : ProcessResult) (st' : St)
    (h : processQuery env st query documentIds csvFileIds = .ok (r, st')) :
    r.queryType ∈ fiveLabels ∧
    (analyzeQueryType env query documentIds csvFileIds ∉ fiveLabels →
      r.queryType = "general".toList) ∧
    (∀ e, env.complete (classifyMessages query documentIds.length csvFileIds.length) =
        .error e →
      analyzeQueryType env query documentIds csvFileIds = "general".toList) := by
  refine ⟨?_, ?_, ?_⟩
  · rw [processQuery] at h
    dsimp only at h
    split at h
    · simp only [Except.ok.injEq, Prod.mk.injEq] at h
      rw [← h.1]
      show "csv_analysis".toList ∈ fiveLabels
      decide
    · split at h
      · simp only [Except.ok.injEq, Prod.mk.injEq] at h
        rw [← h.1]
        show "rag".toList ∈ fiveLabels
        decide
      · split at h
        · simp only [Except.ok.injEq, Prod.mk.injEq] at h
          rw [← h.1]
          show "web_search".toList ∈ fiveLabels
          decide
        · split at h
          · simp only [Except.ok.injEq, Prod.mk.injEq] at h
            rw [← h.1]
            show "hybrid".toList ∈ fiveLabels
            decide
          · split at h
            · exact absurd h (by simp)
            · simp only [Except.ok.injEq, Prod.mk.injEq] at h
              rw [← h.1]
              show "general".toList ∈ fiveLabels
              decide
  · intro hnot
    rw [processQuery] at h
    dsimp only at h
    split at h
    · rename_i hq
      rw [hq] at hnot
      exact absurd (by decide) hnot
    · split at h
      · rename_i hq
        rw [hq] at hnot
        exact absurd (by decide) hnot
      · split at h
        · rename_i hq
          rw [hq] at hnot
          exact absurd (by decide) hnot
        · split at h
          · rename_i hq
            rw [hq] at hnot
            exact absurd (by decide) hnot
          · split at h
            · exact absurd h (by simp)
            · simp only [Except.ok.injEq, Prod.mk.injEq] at h
              rw [← h.1]
  · intro e he
    rw [analyzeQueryType, he]

/-- Claim C1, witness: the concrete banana run resolves to general, a member
of the label vocabulary. -/
theorem c1_resolved_strategy_always_labeled_witness :
    ({ response := " BANANA ".toList, sources := [],
       queryType := "general".toList } : ProcessResult).queryType ∈ fiveLabels :=
  (c1_resolved_strategy_always_labeled envBanana st0 ("q".toList) [] []
    { response := " BANANA ".toList, sources := [], queryType := "general".toList } st0
    (by decide)).1

/-- Claim C2, counterexample: the document path produces docanswer, the final
hybrid merge call throws, and the hybrid result is not docanswer — a throwing
synthesis call does not return the document-retrieval answer. -/
theorem c2_hybrid_error_counterexample :
    (processRAGQuery envDocWeb st0 ("milk".toList) ["d1".toList]).1.response =
      "docanswer".toList ∧
    envDocWeb.complete (hybridMessages
      (processRAGQuery envDocWeb st0 ("milk".toList) ["d1".toList]).1.response
      (processWebSearch envDocWeb
        (processRAGQuery envDocWeb st0 ("milk".toList) ["d1".toList]).2
        ("milk".toList)).1.response
      ("milk".toList)) = .error ("boom".toList) ∧
    (processHybridQuery envDocWeb st0 ("milk".toList) ["d1".toList]).1.response ≠
      "docanswer".toList := by
  decide

/-- Claim C2 (amended): when the final hybrid merge call succeeds but yields
no content (missing or empty), the document-retrieval answer is returned
unsynthesized; when the merge call throws, the hybrid path instead returns
the result of one more run of the web-lookup path. -/
theorem c2_hybrid_synthesis_fallbacks (env : Env) (st : St) (query : Str)
    (documentIds : List Str) :
    (∀ content,
      env.complete (hybridMessages
          (processRAGQuery env st query documentIds).1.response
          (processWebSearch env (processRAGQuery env st query documentIds).2 query).1.response
          query) = .ok content →
      content = none ∨ content = some [] →
      (processHybridQuery env st query documentIds).1.response =
        (processRAGQuery env st query documentIds).1.response) ∧
    (∀ e,
      env.complete (hybridMessages
          (processRAGQuery env st query documentIds).1.response
          (processWebSearch env (processRAGQuery env st query documentIds).2 query).1.response
          query) = .error e →
      processHybridQuery env st query documentIds =
        processWebSearch env
          (processWebSearch env (processRAGQuery env st query documentIds).2 query).2 query) := by
  constructor
  · intro content hc hfalsy
    rw [processHybridQuery]
    rw [hc]
    rcases hfalsy with h | h
    · rw [h]
      rfl
    · rw [h]
      rfl
  · intro e he
    rw [processHybridQuery]
    rw [he]

/-- Claim C2, witness: a concrete run whose merge call comes back with no
content returns the document answer unsynthesized. -/
theorem c2_hybrid_synthesis_fallbacks_witness :
    (processHybridQuery envDocWebNone st0 ("milk".toList) ["d1".toList]).1.response =
      (processRAGQuery envDocWebNone st0 ("milk".toList) ["d1".toList]).1.response :=
  (c2_hybrid_synthesis_fallbacks envDocWebNone st0 ("milk".toList) ["d1".toList]).1
    none (by decide) (Or.inl rfl)

/-- Claim C8, counterexample: a query resolved to rag whose document path
falls back to the web path — the web-lookup path runs (counter 0 to 1), yet
the analytics row records triggeredWebSearch = false. -/
theorem c8_fallback_lookup_not_logged_counterexample :
    ((processQuery envNoDocs st0 ("milk".toList) ["d1".toList] []).toOption.map
      (fun p => p.2.webPathRuns)) = some 1 ∧
    ((processQuery envNoDocs st0 ("milk".toList) ["d1".toList] []).toOption.map
      (fun p => (postQueryLog ("milk".toList) ["d1".toList] [] p.1).triggeredWebSearch)) =
      some false ∧
    ((processQuery envNoDocs st0 ("milk".toList) ["d1".toList] []).toOption.map
      (fun p => p.1.queryType)) = some ("rag".toList) := by
  decide

/-- Claim C8 (amended): the analytics row's web-search flag records only
whether the resolved strategy label is web_search or hybrid; when a
rag-classified query has no candidate fragments, the web-lookup path runs
(run counter up by one) yet the row is written with the flag false. -/
theorem c8_flag_reflects_strategy_only (env : Env) (st : St) (query : Str)
    (documentIds csvFileIds : List Str) (r : ProcessResult) (st' : St)
    (hcls : analyzeQueryType env query documentIds csvFileIds = "rag".toList)
    (hempty : ragCandidates env documentIds = [])
    (h : processQuery env st query documentIds csvFileIds = .ok (r, st')) :
    st'.webPathRuns = st.webPathRuns + 1 ∧
    (postQueryLog query documentIds csvFileIds r).triggeredWebSearch = false ∧
    r.queryType = "rag".toList := by
  rw [processQuery] at h
  dsimp only at h
  rw [hcls] at h
  rw [if_neg (by decide), if_pos rfl] at h
  rw [processRAGQuery_fallback env st query documentIds (Or.inl hempty)] at h
  simp only [Except.ok.injEq, Prod.mk.injEq] at h
  obtain ⟨hr, hst⟩ := h
  refine ⟨?_, ?_, ?_⟩
  · rw [← hst]
    exact processWebSearch_webPathRuns env st query
  · have hqt : r.queryType = "rag".toList := by rw [← hr]
    simp only [postQueryLog, hqt]
    decide
  · rw [← hr]


/-- Claim C8, witness: the concrete fallback run through the theorem — the
run counter went up by one while the logged flag is false. -/
theorem c8_flag_reflects_strategy_only_witness :
    ({ cache := [("milk".toList, { results := [resT], searchedAt := 0, hitCount := 1 })],
       webPathRuns := 1,
       fetchLog := [("dairy farming milk".toList, 5)] } : St).webPathRuns =
      st0.webPathRuns + 1 ∧
    (postQueryLog ("milk".toList) ["d1".toList] []
      { response := "webanswer".toList,
        sources := [{ data := SourceData.web ("t".toList) ("u".toList), priority := none }],
        queryType := "rag".toList }).triggeredWebSearch = false :=
  have h := c8_flag_reflects_strategy_only envNoDocs st0 ("milk".toList) ["d1".toList] []
    { response := "webanswer".toList,
      sources := [{ data := SourceData.web ("t".toList) ("u".toList), priority := none }],
      queryType := "rag".toList }
    { cache := [("milk".toList, { results := [resT], searchedAt := 0, hitCount := 1 })],
      webPathRuns := 1,
      fetchLog := [("dairy farming milk".toList, 5)] }
    (by decide) (by decide) (by decide)
  ⟨h.1, h.2.1⟩

end DairyBot
